import Mathlib

/-!
Verification of `xapian-core/api/editdistance.h` (class `EditDistanceCalculator`).

A text is modelled by the sequence of Unicode code points its UTF-8 bytes
decode to (decoding itself lives in `xapian/unicode.h`, outside this header);
the UTF-8 byte length of a text is recovered from the code points via the
standard 1–4 byte widths.  The DP engine `EditDistanceCalculator::calc` is
declared in the header but defined in `editdistance.cc`, which is not part of
this development, so it is modelled from its specified contract.
-/

namespace EditDistance

/-- Modelled from the spec: the external UTF-8 decoder (`Xapian::Utf8Iterator`
from `xapian/unicode.h`, not part of this development) reads each Unicode code
point from 1 to 4 encoded bytes; this gives the encoded width of one code
point. -/
def utf8Width (ch : Nat) : Nat :=
  if ch < 0x80 then 1
  else if ch < 0x800 then 2
  else if ch < 0x10000 then 3
  else 4

/-- Modelled from the spec: the UTF-8 encoded byte length of a text given as
its decoded code-point sequence (`std::string::size()` of the encoded text). -/
def byteLen (s : List Nat) : Nat := (s.map utf8Width).sum

/-- Restricted Damerau–Levenshtein distance: minimum number of insertions,
deletions, substitutions and transpositions of two adjacent characters, each
of cost 1, needed to turn one sequence into the other (class comment of
`EditDistanceCalculator`, spec glossary).  Standard recurrence on suffixes,
with the transposition case firing when the two leading characters are
swapped. -/
def dlDist : List Nat → List Nat → Nat
  | [], ys => ys.length
  | xs, [] => xs.length
  | x :: xs, y :: ys =>
      let del := dlDist xs (y :: ys) + 1
      let ins := dlDist (x :: xs) ys + 1
      let sub := dlDist xs ys + (if x = y then 0 else 1)
      let best := min sub (min del ins)
      match xs, ys with
      | x2 :: xs2, y2 :: ys2 =>
          if x = y2 ∧ y = x2 then min best (dlDist xs2 ys2 + 1) else best
      | _, _ => best
  termination_by xs ys => xs.length + ys.length
  decreasing_by all_goals simp_arith

/-- `INT_MAX` from `<climits>` with Xapian's 32-bit `int`. -/
def INT_MAX : Nat := 2147483647

/-- Modelled from the spec: `EditDistanceCalculator::calc` is declared at
`editdistance.h:81` but defined in `editdistance.cc`, which is missing from
this development.  Its contract (header comment at `editdistance.h:102-114`,
spec §4.3–§4.4): return the exact restricted Damerau–Levenshtein distance to
the target when it is ≤ `max_distance`, and otherwise any value strictly
greater than `max_distance`.  It is modelled as always returning the exact
distance, a refinement of that contract. -/
def calcDistance (target cand : List Nat) (_maxDistance : Nat) : Nat :=
  dlDist target cand

/-- `std::abs(int(a) - int(b))` applied to the two sequence lengths
(`editdistance.h:137`). -/
def lbDiff (a b : Nat) : Nat := ((a : Int) - (b : Int)).natAbs

/-- Embeds `EditDistanceCalculator::operator()` (`editdistance.h:116-144`) as
a function of the target's code points, the candidate's code points and
`max_distance`.  `target.size()` is the target's code-point count,
`candidate.size()` its UTF-8 byte length; `utf32.assign` decodes the
candidate, which in this model yields the candidate sequence itself. -/
def evaluate (target cand : List Nat) (maxDistance : Nat) : Nat :=
  if target.length > byteLen cand + maxDistance then
    -- Candidate too short.
    INT_MAX
  else if target.length + maxDistance < byteLen cand * 3 / 4 then
    -- Candidate too long.
    INT_MAX
  else if lbDiff cand.length target.length > maxDistance then
    lbDiff cand.length target.length
  else
    calcDistance target cand maxDistance

/-- `VEC_SIZE` (`editdistance.h:69`). -/
def VEC_SIZE : Nat := 64

/-- The state of an `EditDistanceCalculator` object: the immutable target
code points and frequency histogram, plus the mutable candidate scratch
vector `utf32` and the growable DP buffer `array` (modelled by its size;
per spec §4.3 each call's result is independent of leftover buffer
contents). -/
structure EDCalc where
  target : List Nat
  target_freqs : Nat → Nat
  utf32 : List Nat
  arr : Nat

/-- Embeds the constructor (`editdistance.h:88-96`): decode the target and
tally each code point modulo `VEC_SIZE` into the histogram; scratch starts
empty and the DP buffer unallocated. -/
def mkCalculator (t : List Nat) : EDCalc :=
  { target := t
    target_freqs := fun b => t.countP (fun ch => ch % VEC_SIZE == b)
    utf32 := []
    arr := 0 }

/-- Stateful embedding of `operator()`: same result as `evaluate`, plus the
state update — the byte-length prefilters return before `utf32.assign`, the
code-point-count check returns after it, and the full computation may also
grow the DP buffer (spec §3: sized to the largest candidate so far). -/
def evaluateState (c : EDCalc) (cand : List Nat) (m : Nat) : Nat × EDCalc :=
  if c.target.length > byteLen cand + m then (INT_MAX, c)
  else if c.target.length + m < byteLen cand * 3 / 4 then (INT_MAX, c)
  else if lbDiff cand.length c.target.length > m then
    (lbDiff cand.length c.target.length, { c with utf32 := cand })
  else
    (calcDistance c.target cand m, { c with utf32 := cand, arr := max c.arr cand.length })

/-- Run a sequence of `evaluate` calls on one calculator instance, threading
the mutable scratch state, and collect the returned distances. -/
def runCalls (c : EDCalc) : List (List Nat × Nat) → List Nat
  | [] => []
  | p :: rest => (evaluateState c p.1 p.2).1 :: runCalls (evaluateState c p.1 p.2).2 rest

/-- Variant of `evaluate` in which the element access `&utf32[0]`
(`editdistance.h:143`) is checked: index 0 of the decoded candidate vector is
looked up with an `Option`-returning access, and an out-of-bounds access
yields `none`. -/
def evaluateChecked (target cand : List Nat) (maxDistance : Nat) : Option Nat :=
  if target.length > byteLen cand + maxDistance then some INT_MAX
  else if target.length + maxDistance < byteLen cand * 3 / 4 then some INT_MAX
  else if lbDiff cand.length target.length > maxDistance then
    some (lbDiff cand.length target.length)
  else
    match cand[0]? with
    | some _ => some (calcDistance target cand maxDistance)
    | none => none

/-- The result of a stateful call is the pure `evaluate` of the instance's
target: it does not depend on the scratch fields. -/
theorem evaluateState_fst (c : EDCalc) (cand : List Nat) (m : Nat) :
    (evaluateState c cand m).1 = evaluate c.target cand m := by
  unfold evaluateState evaluate
  split_ifs <;> rfl

/-- A stateful call never changes the target sequence. -/
theorem evaluateState_target_eq (c : EDCalc) (cand : List Nat) (m : Nat) :
    (evaluateState c cand m).2.target = c.target := by
  unfold evaluateState
  split_ifs <;> rfl

/-- A run of calls returns the pure `evaluate` of each candidate against the
instance's target, whatever the initial scratch contents. -/
theorem runCalls_eq_map (calls : List (List Nat × Nat)) :
    ∀ c : EDCalc, runCalls c calls = calls.map (fun p => evaluate c.target p.1 p.2) := by
  induction calls with
  | nil => intro c; rfl
  | cons p rest ih =>
      intro c
      show (evaluateState c p.1 p.2).1 :: runCalls (evaluateState c p.1 p.2).2 rest = _
      rw [List.map_cons, evaluateState_fst, ih, evaluateState_target_eq]

/-- Claim C1: the claim states that whenever the true restricted
Damerau–Levenshtein distance between target and candidate is ≤ `max_distance`,
`evaluate` returns exactly that distance.  The code refutes it: for target
`""`, candidate `"€"` (U+20AC, one code point, three UTF-8 bytes) and
`max_distance = 1`, the true distance is 1 ≤ 1, yet the "candidate too long"
prefilter at `editdistance.h:128` compares against `candidate.size() * 3 / 4`
(= 2) instead of the minimum possible code-point count
`(candidate.size() + 3) / 4` (= 1) promised by the comment at lines 120–123,
so the call returns `INT_MAX` instead of 1. -/
theorem evaluate_exact_within_bound_fails :
    dlDist [] [0x20AC] = 1 ∧ evaluate [] [0x20AC] 1 = INT_MAX ∧ INT_MAX ≠ 1 :=
  ⟨by simp [dlDist], by decide, by decide⟩

/-- Claim C2: if the true restricted Damerau–Levenshtein distance exceeds
`max_distance`, then `evaluate` returns some value strictly greater than
`max_distance` (`max_distance` being a C `int`, it is < `INT_MAX` whenever
any strictly greater `int` can be returned). -/
theorem evaluate_gt_of_true_dist_gt (target cand : List Nat) (m : Nat)
    (hm : m < INT_MAX) (hd : m < dlDist target cand) :
    m < evaluate target cand m := by
  unfold evaluate
  split_ifs with h1 h2 h3
  · exact hm
  · exact hm
  · exact h3
  · exact hd

theorem evaluate_gt_of_true_dist_gt_witness :
    0 < INT_MAX ∧ 0 < dlDist [97] [] ∧ 0 < evaluate [97] [] 0 :=
  ⟨by decide, by simp [dlDist],
   evaluate_gt_of_true_dist_gt [97] [] 0 (by decide) (by simp [dlDist])⟩

/-- Claim C3: the claim states that no cheap rejection filter ever rejects a
candidate whose true distance is ≤ the threshold.  The code refutes it: for
target `""`, candidate `"𐀀"` (U+10000, one code point, four UTF-8 bytes) and
threshold 1, the true distance is 1 ≤ 1, yet the "candidate too long" check
(`editdistance.h:128`, `candidate.size() * 3 / 4` = 3 instead of the
documented minimum code-point count `(candidate.size() + 3) / 4` = 1) fires
and returns `INT_MAX` > 1: a false rejection. -/
theorem filter_false_rejection :
    dlDist [] [0x10000] ≤ 1 ∧ evaluate [] [0x10000] 1 = INT_MAX ∧ 1 < INT_MAX :=
  ⟨by simp [dlDist], by decide, by decide⟩

/-- Claim C4: the claim states `evaluate(T_text, m) = 0` for every `m ≥ 0`
when the candidate equals the target.  The code refutes it: for target and
candidate both `"𐀀"` (U+10000, one code point, four UTF-8 bytes) and `m = 0`,
the "candidate too long" check fires (`1 + 0 < 4 * 3 / 4 = 3`) and the call
returns `INT_MAX`, not 0. -/
theorem evaluate_identity_fails :
    evaluate [0x10000] [0x10000] 0 = INT_MAX ∧ INT_MAX ≠ 0 :=
  ⟨by decide, by decide⟩

/-- Claim C5: for target `"ab"`, candidate `"ba"` and threshold 2 the result
is 1 — an adjacent transposition counts as a single edit. -/
theorem evaluate_transposition_one : evaluate [97, 98] [98, 97] 2 = 1 := by
  simp [evaluate, calcDistance, byteLen, utf8Width, lbDiff, dlDist]

/-- Claim C6: whenever the code-point-count difference `lb` between candidate
and target exceeds `max_distance` (< `INT_MAX`, as it is an `int`), the call
returns a value > `max_distance` without running the DP: the result is either
`INT_MAX` from a byte-length prefilter or `lb` itself from the
code-point-count check. -/
theorem evaluate_length_prefilter (target cand : List Nat) (m : Nat)
    (hm : m < INT_MAX) (hlb : m < lbDiff cand.length target.length) :
    m < evaluate target cand m ∧
      (evaluate target cand m = INT_MAX ∨
        evaluate target cand m = lbDiff cand.length target.length) := by
  unfold evaluate
  split_ifs with h1 h2
  · exact ⟨hm, Or.inl rfl⟩
  · exact ⟨hm, Or.inl rfl⟩
  · exact ⟨hlb, Or.inr rfl⟩

theorem evaluate_length_prefilter_witness :
    3 < INT_MAX ∧
      3 < lbDiff ([98, 98] : List Nat).length
          ([97, 97, 97, 97, 97, 97, 97, 97, 97, 97] : List Nat).length ∧
      3 < evaluate [97, 97, 97, 97, 97, 97, 97, 97, 97, 97] [98, 98] 3 :=
  ⟨by decide, by decide,
   (evaluate_length_prefilter [97, 97, 97, 97, 97, 97, 97, 97, 97, 97]
     [98, 98] 3 (by decide) (by decide)).1⟩

/-- Claim C7: with the empty target, `evaluate "" m = 0` for every `m`, and
`evaluate "abc" m = 3` for every `m ≥ 3`. -/
theorem evaluate_empty_target (m : Nat) :
    evaluate [] [] m = 0 ∧ (3 ≤ m → evaluate [] [97, 98, 99] m = 3) := by
  constructor
  · unfold evaluate
    split_ifs with h1 h2 h3
    · exact absurd h1 (by simp [byteLen])
    · exact absurd h2 (by simp [byteLen])
    · exact absurd h3 (by simp [lbDiff])
    · simp [calcDistance, dlDist]
  · intro hm
    unfold evaluate
    split_ifs with h1 h2 h3
    · exact absurd h1 (by simp [byteLen, utf8Width])
    · refine absurd h2 ?_
      simp only [byteLen, utf8Width, List.map, List.sum_cons, List.sum_nil]
      norm_num
      omega
    · refine absurd h3 ?_
      simp only [lbDiff, List.length_nil, List.length_cons]
      norm_num
      omega
    · simp [calcDistance, dlDist]

theorem evaluate_empty_target_witness :
    evaluate [] [] 3 = 0 ∧ 3 ≤ 3 ∧ evaluate [] [97, 98, 99] 3 = 3 :=
  ⟨(evaluate_empty_target 3).1, by decide, (evaluate_empty_target 3).2 (by decide)⟩

/-- Claim C8: a sequence of calls on one calculator instance with
non-increasing thresholds returns, call for call, the same results as a
freshly constructed calculator for the same target would: reuse of the
candidate scratch and the DP buffer leaks no state between calls. -/
theorem runCalls_fresh_equiv (T : List Nat) (calls : List (List Nat × Nat))
    (_hmono : List.Chain' (fun a b => b.2 ≤ a.2) calls) :
    runCalls (mkCalculator T) calls
      = calls.map (fun p => (evaluateState (mkCalculator T) p.1 p.2).1) := by
  rw [runCalls_eq_map]
  have h : (fun p : List Nat × Nat => (evaluateState (mkCalculator T) p.1 p.2).1)
      = fun p : List Nat × Nat => evaluate (mkCalculator T).target p.1 p.2 :=
    funext fun p => evaluateState_fst (mkCalculator T) p.1 p.2
  rw [h]

theorem runCalls_fresh_equiv_witness :
    List.Chain' (fun a b => b.2 ≤ a.2) ([([97, 98], 2), ([], 1)] : List (List Nat × Nat)) ∧
      runCalls (mkCalculator [97]) [([97, 98], 2), ([], 1)]
        = ([([97, 98], 2), ([], 1)] : List (List Nat × Nat)).map
            (fun p => (evaluateState (mkCalculator [97]) p.1 p.2).1) :=
  ⟨by simp, runCalls_fresh_equiv [97] [([97, 98], 2), ([], 1)] (by simp)⟩

/-- Claim C9: every call leaves the target code-point sequence and the target
frequency histogram unchanged; only the candidate scratch and the DP buffer
are ever updated. -/
theorem evaluateState_frame (c : EDCalc) (cand : List Nat) (m : Nat) :
    (evaluateState c cand m).2.target = c.target ∧
      (evaluateState c cand m).2.target_freqs = c.target_freqs := by
  unfold evaluateState
  split_ifs <;> exact ⟨rfl, rfl⟩

/-- Claim C10: the claim states that every access to the decoded candidate
scratch vector is in bounds, in particular that `calc(&utf32[0], ...)`
(`editdistance.h:143`) is safe even when the candidate decodes to zero code
points.  The code refutes it: with target `""`, candidate `""` and
`max_distance = 0` all cheap filters pass and the call indexes element 0 of
the empty vector `utf32` — the `Option`-returning access yields `none`, so
the error branch is reachable. -/
theorem evaluateChecked_out_of_bounds : evaluateChecked [] [] 0 = none := by
  decide

end EditDistance
